import Mathlib

/-
  Verification of the computer-use tool adapter
  (computer_use_demo/tools/computer.py).

  Modelling conventions:
  * Python ints are `ℤ`; Python float arithmetic inside `scale_coordinates`
    is modelled by exact rational arithmetic over `ℚ`, and Python's builtin
    `round` (round half to even) is `pyround`.
  * Runtime-dynamic Python values passed for the `coordinate` argument are
    modelled by the `PyVal` type (ints, strings, lists, tuples, None).
  * Side effects (pyautogui calls, screen capture) are recorded as a list of
    `Effect` values; the ambient screen state (cursor position, the image a
    capture would produce) is supplied by an `EnvState` record.
  * A raised `ToolError` is the `Except.error` branch.
-/

namespace ComputerUseDemo

/-- Dynamic Python values that can arrive in the `coordinate` argument. -/
inductive PyVal where
  | int (n : ℤ)
  | str (s : String)
  | list (xs : List PyVal)
  | tuple (xs : List PyVal)
  | noneVal

mutual

/-- Python repr of a value (as used by str() on containers). -/
def PyVal.pyrepr : PyVal → String
  | .int n => toString n
  | .str s => "'" ++ s ++ "'"
  | .list xs => "[" ++ String.intercalate ", " (PyVal.pyreprList xs) ++ "]"
  | .tuple [x] => "(" ++ PyVal.pyrepr x ++ ",)"
  | .tuple xs => "(" ++ String.intercalate ", " (PyVal.pyreprList xs) ++ ")"
  | .noneVal => "None"

/-- Python repr of each value in a list. -/
def PyVal.pyreprList : List PyVal → List String
  | [] => []
  | x :: xs => PyVal.pyrepr x :: PyVal.pyreprList xs

end

/-- Python str() of a value, as f-string interpolation renders it. -/
def PyVal.tostr : PyVal → String
  | .str s => s
  | v => PyVal.pyrepr v

/-- Python str.split with a one-character separator, over the character
list of the string: splitting on sep yields the (possibly empty) pieces
between occurrences of sep. -/
def pySplitOnChar (sep : Char) : List Char → List (List Char)
  | [] => [[]]
  | c :: cs =>
    let rest := pySplitOnChar sep cs
    if c = sep then [] :: rest
    else
      match rest with
      | r :: rs => (c :: r) :: rs
      | [] => [[c]]

/-- Python str.strip: drop leading and trailing whitespace. -/
def pyStrip (cs : List Char) : List Char :=
  ((cs.dropWhile Char.isWhitespace).reverse.dropWhile Char.isWhitespace).reverse

/-- Python str.lower, character by character. -/
def pyLower (cs : List Char) : List Char := cs.map Char.toLower

/-- The hotkey-combination parse for the key action:
key.strip().lower() for key in text.split("+"). -/
def pySplitKeys (s : String) : List String :=
  (pySplitOnChar '+' s.data).map fun k => String.mk (pyLower (pyStrip k))

/-- Modelled from the spec (base.py is not in the sources): a `ToolError`
carries a human-readable message. -/
structure ToolError where
  message : String
deriving DecidableEq

/-- Modelled from the spec (base.py is not in the sources): a `ToolResult`
carries an optional text payload and an optional base64-encoded image. -/
structure ToolResult where
  output : Option String
  base64_image : Option String
deriving DecidableEq

/-- Source of a coordinate pair for scaling (StrEnum ScalingSource). -/
inductive ScalingSource where
  | COMPUTER
  | API
deriving DecidableEq

/-- Observable side effects of one call: pyautogui input injections and
screen captures. -/
inductive Effect where
  | moveTo (x y : ℤ)
  | dragTo (x y : ℤ)
  | hotkey (keys : List String)
  | press (key : String)
  | write (text : String)
  | click
  | rightClick
  | middleClick
  | doubleClick
  | screenshotEff
deriving DecidableEq

/-- Ambient screen state: the current pointer position that
pyautogui.position() would report, and the image a screen capture would
yield (file I/O abstracted away). -/
structure EnvState where
  cursor_x : ℤ
  cursor_y : ℤ
  screenshot_image : String

/-- The ComputerTool instance state: configured resolution, optional
display number, and the _scaling_enabled flag (True in the source). -/
structure ComputerTool where
  width : ℤ
  height : ℤ
  display_num : Option ℤ
  scaling_enabled : Bool

/-- IMAGE_MAX_WIDTH = 1200. -/
def IMAGE_MAX_WIDTH : ℤ := 1200

/-- Python round: nearest integer, ties to even. -/
def pyround (q : ℚ) : ℤ :=
  if q - ⌊q⌋ < 1/2 then ⌊q⌋
  else if 1/2 < q - ⌊q⌋ then ⌊q⌋ + 1
  else if ⌊q⌋ % 2 = 0 then ⌊q⌋ else ⌊q⌋ + 1

/-- target_dimension height: IMAGE_MAX_WIDTH / ratio, where
ratio = width / height. -/
def ComputerTool.target_height (t : ComputerTool) : ℚ :=
  (IMAGE_MAX_WIDTH : ℚ) / ((t.width : ℚ) / (t.height : ℚ))

/-- x_scaling_factor = target width / screen width. -/
def ComputerTool.x_scaling_factor (t : ComputerTool) : ℚ :=
  (IMAGE_MAX_WIDTH : ℚ) / (t.width : ℚ)

/-- y_scaling_factor = target height / screen height. -/
def ComputerTool.y_scaling_factor (t : ComputerTool) : ℚ :=
  t.target_height / (t.height : ℚ)

/-- scale_coordinates: identity when scaling is disabled; for API input,
bounds-check against the device resolution then divide by the factors;
for COMPUTER input, multiply by the factors. -/
def ComputerTool.scale_coordinates (t : ComputerTool) (source : ScalingSource)
    (x y : ℤ) : Except ToolError (ℤ × ℤ) :=
  if ¬ t.scaling_enabled then .ok (x, y)
  else
    match source with
    | .API =>
        if t.width < x ∨ t.height < y then
          .error ⟨s!"Coordinates {x}, {y} are out of bounds"⟩
        else
          .ok (pyround ((x : ℚ) / t.x_scaling_factor),
               pyround ((y : ℚ) / t.y_scaling_factor))
    | .COMPUTER =>
        .ok (pyround ((x : ℚ) * t.x_scaling_factor),
             pyround ((y : ℚ) * t.y_scaling_factor))

/-- The agent-facing options record. -/
structure ComputerToolOptions where
  display_width_px : ℤ
  display_height_px : ℤ
  display_number : Option ℤ

/-- options property: the configured resolution scaled from computer space
to API space, plus the display number. -/
def ComputerTool.options (t : ComputerTool) :
    Except ToolError ComputerToolOptions :=
  (t.scale_coordinates .COMPUTER t.width t.height).map fun wh =>
    { display_width_px := wh.1
      display_height_px := wh.2
      display_number := t.display_num }

/-- The capability descriptor sent to the API. -/
structure BetaToolComputerUseParam where
  name : String
  type : String
  display_width_px : ℤ
  display_height_px : ℤ
  display_number : Option ℤ

/-- to_params: name, api_type and the options fields. -/
def ComputerTool.to_params (t : ComputerTool) :
    Except ToolError BetaToolComputerUseParam :=
  t.options.map fun o =>
    { name := "computer"
      type := "computer_20241022"
      display_width_px := o.display_width_px
      display_height_px := o.display_height_px
      display_number := o.display_number }

/-- The __call__ dispatcher. The result of a successful call is the list of
side effects in order together with the returned ToolResult. -/
def ComputerTool.call (t : ComputerTool) (env : EnvState) (action : String)
    (text : Option String) (coordinate : Option PyVal) :
    Except ToolError (List Effect × ToolResult) :=
  if action = "mouse_move" ∨ action = "left_click_drag" then
    match coordinate with
    | none => .error ⟨s!"coordinate is required for {action}"⟩
    | some coord =>
      match text with
      | some _ => .error ⟨s!"text is not accepted for {action}"⟩
      | none =>
        let coord_str := coord.tostr
        match coord with
        | .list [PyVal.int cx, PyVal.int cy] =>
          if 0 ≤ cx ∧ 0 ≤ cy then
            match t.scale_coordinates ScalingSource.API cx cy with
            | .error e => .error e
            | .ok (x, y) =>
              if action = "mouse_move" then
                .ok ([Effect.moveTo x y, Effect.screenshotEff],
                     ⟨none, some env.screenshot_image⟩)
              else
                .ok ([Effect.dragTo x y, Effect.screenshotEff],
                     ⟨none, some env.screenshot_image⟩)
          else .error ⟨s!"{coord_str} must be a tuple of non-negative ints"⟩
        | .list xs =>
          if xs.length = 2 then
            .error ⟨s!"{coord_str} must be a tuple of non-negative ints"⟩
          else
            .error ⟨s!"{coord_str} must be a tuple of length 2"⟩
        | _ => .error ⟨s!"{coord_str} must be a tuple of length 2"⟩
  else if action = "key" ∨ action = "type" then
    match text with
    | none => .error ⟨s!"text is required for {action}"⟩
    | some txt =>
      match coordinate with
      | some _ => .error ⟨s!"coordinate is not accepted for {action}"⟩
      | none =>
        if action = "key" then
          if txt.data.contains '+' then
            .ok ([Effect.hotkey (pySplitKeys txt), Effect.screenshotEff],
                 ⟨none, some env.screenshot_image⟩)
          else
            .ok ([Effect.press (String.mk (pyLower txt.data)),
                  Effect.screenshotEff],
                 ⟨none, some env.screenshot_image⟩)
        else
          .ok ([Effect.write txt, Effect.screenshotEff],
               ⟨none, some env.screenshot_image⟩)
  else if action = "left_click" ∨ action = "right_click" ∨
          action = "double_click" ∨ action = "middle_click" ∨
          action = "screenshot" ∨ action = "cursor_position" then
    if text.isSome then .error ⟨s!"text is not accepted for {action}"⟩
    else if coordinate.isSome then
      .error ⟨s!"coordinate is not accepted for {action}"⟩
    else if action = "screenshot" then
      .ok ([Effect.screenshotEff], ⟨none, some env.screenshot_image⟩)
    else if action = "cursor_position" then
      match t.scale_coordinates ScalingSource.COMPUTER env.cursor_x
              env.cursor_y with
      | .error e => .error e
      | .ok (scaled_x, scaled_y) =>
        .ok ([], ⟨some s!"X={scaled_x},Y={scaled_y}", none⟩)
    else if action = "left_click" then
      .ok ([Effect.click, Effect.screenshotEff],
           ⟨none, some env.screenshot_image⟩)
    else if action = "right_click" then
      .ok ([Effect.rightClick, Effect.screenshotEff],
           ⟨none, some env.screenshot_image⟩)
    else if action = "middle_click" then
      .ok ([Effect.middleClick, Effect.screenshotEff],
           ⟨none, some env.screenshot_image⟩)
    else
      .ok ([Effect.doubleClick, Effect.screenshotEff],
           ⟨none, some env.screenshot_image⟩)
  else .error ⟨s!"Invalid action: {action}"⟩

/-- A sample tool configuration, the source's default 1920x1080. -/
def tool0 : ComputerTool :=
  { width := 1920, height := 1080, display_num := none,
    scaling_enabled := true }

/-- A sample tool configuration with scaling disabled. -/
def tool_noscale : ComputerTool :=
  { width := 1920, height := 1080, display_num := none,
    scaling_enabled := false }

/-- A sample ambient screen state. -/
def env0 : EnvState :=
  { cursor_x := 960, cursor_y := 540, screenshot_image := "img" }

/-- A value is a pair of exactly two elements: a list or tuple of
length two. -/
def IsPairOfTwo : PyVal → Prop
  | .list xs => xs.length = 2
  | .tuple xs => xs.length = 2
  | _ => False

/-- The elements of a container value. -/
def coordItems : PyVal → List PyVal
  | .list xs => xs
  | .tuple xs => xs
  | _ => []

/-- A value is a non-negative integer. -/
def IsNonNegInt (v : PyVal) : Prop := ∃ n : ℤ, v = .int n ∧ 0 ≤ n

theorem pyround_abs_sub_le (q : ℚ) : |(pyround q : ℚ) - q| ≤ 1/2 := by
  have h0 : (0:ℚ) ≤ q - ⌊q⌋ := by
    have := Int.floor_le q
    linarith
  have h1 : q - ⌊q⌋ < 1 := by
    have := Int.lt_floor_add_one q
    linarith
  unfold pyround
  split_ifs with ha hb hc
  · rw [abs_sub_comm, abs_of_nonneg h0]
    linarith
  · rw [abs_of_nonneg (by push_cast; linarith)]
    push_cast
    linarith
  · rw [abs_sub_comm, abs_of_nonneg h0]
    linarith
  · rw [abs_of_nonneg (by push_cast; linarith)]
    push_cast
    linarith

theorem pyround_intCast_add (n : ℤ) (ε : ℚ) (h : |ε| < 1/2) :
    pyround ((n:ℚ) + ε) = n := by
  rcases abs_lt.mp h with ⟨hl, hr⟩
  rcases le_or_lt 0 ε with hε | hε
  · have hf : ⌊(n:ℚ) + ε⌋ = n :=
      Int.floor_eq_iff.mpr ⟨by linarith, by linarith⟩
    unfold pyround
    rw [hf]
    split_ifs with h1 h2 h3
    · rfl
    · exfalso; push_cast at h1 h2; linarith
    · exfalso; push_cast at h1; linarith
    · exfalso; push_cast at h1; linarith
  · have hf : ⌊(n:ℚ) + ε⌋ = n - 1 :=
      Int.floor_eq_iff.mpr ⟨by push_cast; linarith, by push_cast; linarith⟩
    unfold pyround
    rw [hf]
    split_ifs with h1 h2 h3
    · exfalso; push_cast at h1; linarith
    · omega
    · exfalso; push_cast at h1 h2; linarith
    · exfalso; push_cast at h1 h2; linarith

theorem pyround_div_mul (s : ℚ) (h0 : 0 < s) (h1 : s < 1) (n : ℤ) :
    pyround ((pyround ((n:ℚ)/s) : ℚ) * s) = n := by
  have hs : s ≠ 0 := ne_of_gt h0
  have hA := pyround_abs_sub_le ((n:ℚ)/s)
  have key : (pyround ((n:ℚ)/s) : ℚ) * s =
      (n:ℚ) + ((pyround ((n:ℚ)/s) : ℚ) - (n:ℚ)/s) * s := by
    field_simp
  rw [key]
  apply pyround_intCast_add
  rw [abs_mul, abs_of_pos h0]
  calc |(pyround ((n:ℚ)/s) : ℚ) - (n:ℚ)/s| * s ≤ (1/2) * s :=
        mul_le_mul_of_nonneg_right hA h0.le
    _ < 1/2 := by linarith

theorem y_eq_x_factor (t : ComputerTool) (hw : (t.width:ℚ) ≠ 0)
    (hh : (t.height:ℚ) ≠ 0) : t.y_scaling_factor = t.x_scaling_factor := by
  unfold ComputerTool.y_scaling_factor ComputerTool.x_scaling_factor
    ComputerTool.target_height
  field_simp
  ring

theorem scale_computer_ok (t : ComputerTool) (x y : ℤ) :
    ∃ p, t.scale_coordinates .COMPUTER x y = .ok p := by
  unfold ComputerTool.scale_coordinates
  by_cases h : t.scaling_enabled
  · simp [h]
  · simp [h]

/-- C10: for every resolution with positive width and height the two
scaling factors computed by scale_coordinates coincide, both being
IMAGE_MAX_WIDTH / width in exact arithmetic, so both coordinate components
are scaled by the same factor. -/
theorem scaling_factors_equal (t : ComputerTool) (hw : 0 < t.width)
    (hh : 0 < t.height) :
    t.y_scaling_factor = t.x_scaling_factor ∧
    t.x_scaling_factor = (IMAGE_MAX_WIDTH : ℚ) / (t.width : ℚ) := by
  refine ⟨y_eq_x_factor t ?_ ?_, rfl⟩
  · exact_mod_cast hw.ne'
  · exact_mod_cast hh.ne'

/-- Witness for C10 at the default 1920x1080 configuration. -/
theorem scaling_factors_equal_witness :
    tool0.y_scaling_factor = tool0.x_scaling_factor ∧
    tool0.x_scaling_factor = (IMAGE_MAX_WIDTH : ℚ) / (tool0.width : ℚ) :=
  scaling_factors_equal tool0 (by decide) (by decide)

/-- C2: with scaling enabled, converting from API space to computer space
fails with an out-of-bounds error exactly when x exceeds the device width
or y exceeds the device height; otherwise it divides by the scaling
factors and rounds, which in exact arithmetic is
round(x * width / IMAGE_MAX_WIDTH) in both components. -/
theorem api_scaling_bounds_and_value (t : ComputerTool)
    (hen : t.scaling_enabled = true) (hw : 0 < t.width) (hh : 0 < t.height)
    (x y : ℤ) :
    ((∃ e, t.scale_coordinates .API x y = .error e) ↔
      (t.width < x ∨ t.height < y)) ∧
    (x ≤ t.width → y ≤ t.height →
      t.scale_coordinates .API x y =
        .ok (pyround ((x:ℚ) * t.width / IMAGE_MAX_WIDTH),
             pyround ((y:ℚ) * t.width / IMAGE_MAX_WIDTH))) := by
  have hwq : (t.width:ℚ) ≠ 0 := by exact_mod_cast hw.ne'
  have hhq : (t.height:ℚ) ≠ 0 := by exact_mod_cast hh.ne'
  unfold ComputerTool.scale_coordinates
  simp only [hen, not_true_eq_false, if_false, Bool.true_eq_false]
  constructor
  · constructor
    · rintro ⟨e, he⟩
      by_contra hc
      rw [if_neg hc] at he
      exact Except.noConfusion he
    · intro hc
      rw [if_pos hc]
      exact ⟨_, rfl⟩
  · intro hx hy
    rw [if_neg (by simp only [not_or, not_lt]; exact ⟨hx, hy⟩)]
    have h1 : (x:ℚ) / t.x_scaling_factor = (x:ℚ) * t.width / IMAGE_MAX_WIDTH := by
      unfold ComputerTool.x_scaling_factor IMAGE_MAX_WIDTH
      push_cast
      field_simp
    have h2 : (y:ℚ) / t.y_scaling_factor = (y:ℚ) * t.width / IMAGE_MAX_WIDTH := by
      rw [y_eq_x_factor t hwq hhq]
      unfold ComputerTool.x_scaling_factor IMAGE_MAX_WIDTH
      push_cast
      field_simp
    rw [h1, h2]

/-- Witness for C2: at 1920x1080 the API coordinate (600, 600) is in
bounds and converts to computer-space (960, 960). -/
theorem api_scaling_bounds_and_value_witness :
    tool0.scale_coordinates .API 600 600 = .ok (960, 960) := by
  have h := (api_scaling_bounds_and_value tool0 rfl (by decide) (by decide)
    600 600).2 (by decide) (by decide)
  rw [h]
  norm_num [pyround, tool0, IMAGE_MAX_WIDTH]

/-- C9: when scaling is disabled scale_coordinates is the identity in both
directions with no bounds validation, so even an API coordinate beyond the
screen resolution is returned unchanged rather than rejected. -/
theorem scale_disabled_identity (t : ComputerTool)
    (hd : t.scaling_enabled = false) (source : ScalingSource) (x y : ℤ) :
    t.scale_coordinates source x y = .ok (x, y) := by
  unfold ComputerTool.scale_coordinates
  simp [hd]

/-- Witness for C9: with scaling disabled, the API coordinate (5000, 9000)
far beyond the 1920x1080 screen is accepted and returned unchanged. -/
theorem scale_disabled_identity_witness :
    tool_noscale.scale_coordinates .API 5000 9000 = .ok (5000, 9000) :=
  scale_disabled_identity tool_noscale rfl .API 5000 9000

/-- C1: with scaling enabled, height positive and width above the cap,
any coordinate within the screen bounds survives an API-to-computer and
computer-to-API round trip to within one pixel per component (in fact
exactly). -/
theorem api_computer_roundtrip (t : ComputerTool)
    (hen : t.scaling_enabled = true) (hh : 0 < t.height)
    (hw : IMAGE_MAX_WIDTH < t.width) (x y : ℤ)
    (hx0 : 0 ≤ x) (hxw : x ≤ t.width) (hy0 : 0 ≤ y) (hyh : y ≤ t.height) :
    ∃ p q : ℤ × ℤ,
      t.scale_coordinates .API x y = .ok p ∧
      t.scale_coordinates .COMPUTER p.1 p.2 = .ok q ∧
      |q.1 - x| ≤ 1 ∧ |q.2 - y| ≤ 1 := by
  have hw1200 : (1200:ℤ) < t.width := hw
  have hw0 : (0:ℚ) < t.width := by
    have : (0:ℤ) < t.width := by omega
    exact_mod_cast this
  have hh0 : (0:ℚ) < t.height := by exact_mod_cast hh
  have hyx : t.y_scaling_factor = t.x_scaling_factor :=
    y_eq_x_factor t hw0.ne' hh0.ne'
  have hsf0 : 0 < t.x_scaling_factor := by
    unfold ComputerTool.x_scaling_factor IMAGE_MAX_WIDTH
    push_cast
    exact div_pos (by norm_num) hw0
  have hsf1 : t.x_scaling_factor < 1 := by
    unfold ComputerTool.x_scaling_factor IMAGE_MAX_WIDTH
    push_cast
    rw [div_lt_one hw0]
    exact_mod_cast hw1200
  have hcond : ¬(t.width < x ∨ t.height < y) := by
    simp only [not_or, not_lt]
    exact ⟨hxw, hyh⟩
  have e1 : t.scale_coordinates .API x y =
      .ok (pyround ((x:ℚ) / t.x_scaling_factor),
           pyround ((y:ℚ) / t.x_scaling_factor)) := by
    unfold ComputerTool.scale_coordinates
    rw [hyx] at *
    simp [hen, hcond]
  have e2 : t.scale_coordinates .COMPUTER
      (pyround ((x:ℚ) / t.x_scaling_factor))
      (pyround ((y:ℚ) / t.x_scaling_factor)) = .ok (x, y) := by
    unfold ComputerTool.scale_coordinates
    rw [hyx] at *
    simp only [hen, not_true_eq_false, if_false, Bool.true_eq_false]
    rw [pyround_div_mul _ hsf0 hsf1 x, pyround_div_mul _ hsf0 hsf1 y]
  exact ⟨_, (x, y), e1, e2, by simp, by simp⟩

/-- Witness for C1 at 1920x1080 with the coordinate (600, 600). -/
theorem api_computer_roundtrip_witness :
    ∃ p q : ℤ × ℤ,
      tool0.scale_coordinates .API 600 600 = .ok p ∧
      tool0.scale_coordinates .COMPUTER p.1 p.2 = .ok q ∧
      |q.1 - 600| ≤ 1 ∧ |q.2 - 600| ≤ 1 :=
  api_computer_roundtrip tool0 rfl (by decide) (by decide) 600 600
    (by decide) (by decide) (by decide) (by decide)

/-- C7: to_params exposes name "computer", type "computer_20241022", the
configured resolution converted from computer space to API space, and the
display number (the descriptor fields, in order: name, api type,
display_width_px, display_height_px, display_number). -/
theorem to_params_descriptor (t : ComputerTool) :
    ∃ sw sh : ℤ,
      t.scale_coordinates .COMPUTER t.width t.height = .ok (sw, sh) ∧
      t.to_params =
        .ok ⟨"computer", "computer_20241022", sw, sh, t.display_num⟩ := by
  obtain ⟨⟨sw, sh⟩, hp⟩ := scale_computer_ok t t.width t.height
  refine ⟨sw, sh, hp, ?_⟩
  unfold ComputerTool.to_params ComputerTool.options
  rw [hp]
  rfl

theorem call_move_ok_shape (t : ComputerTool) (env : EnvState)
    (action : String)
    (ha : action = "mouse_move" ∨ action = "left_click_drag")
    (text : Option String) (coordinate : Option PyVal)
    (r : List Effect × ToolResult)
    (h : t.call env action text coordinate = .ok r) :
    text = none ∧ ∃ a b : ℤ,
      coordinate = some (PyVal.list [PyVal.int a, PyVal.int b]) ∧
      0 ≤ a ∧ 0 ≤ b := by
  rcases ha with rfl | rfl <;>
  · rcases coordinate with _ | coord
    · simp [ComputerTool.call] at h
    · rcases text with _ | s
      · rcases coord with n | s | xs | xs | _
        · simp [ComputerTool.call] at h
        · simp [ComputerTool.call] at h
        · rcases xs with _ | ⟨a, xs⟩
          · simp [ComputerTool.call] at h
          · rcases xs with _ | ⟨b, xs⟩
            · rcases a with na | sa | la | ta | _ <;>
                simp [ComputerTool.call] at h
            · rcases xs with _ | ⟨c2, xs⟩
              · rcases a with na | sa | la | ta | _ <;>
                  rcases b with nb | sb | lb | tb | _ <;>
                  simp [ComputerTool.call] at h
                case int.int =>
                  split at h
                  · next hpos =>
                    exact ⟨rfl, na, nb, rfl, hpos.1, hpos.2⟩
                  · exact Except.noConfusion h
              · rcases a with na | sa | la | ta | _ <;>
                  rcases b with nb | sb | lb | tb | _ <;>
                  simp [ComputerTool.call] at h
        · simp [ComputerTool.call] at h
        · simp [ComputerTool.call] at h
      · simp [ComputerTool.call] at h

/-- C3: a mouse_move or left_click_drag call fails whenever the
coordinate is absent, the coordinate is not a two-element pair, some
element of the coordinate is negative or not an integer, or a text field
is supplied. -/
theorem move_drag_validation (t : ComputerTool) (env : EnvState)
    (action : String)
    (ha : action = "mouse_move" ∨ action = "left_click_drag")
    (text : Option String) (coordinate : Option PyVal)
    (hbad : coordinate = none ∨ text ≠ none ∨
      (∃ c, coordinate = some c ∧ ¬ IsPairOfTwo c) ∨
      (∃ c, coordinate = some c ∧ ∃ v ∈ coordItems c, ¬ IsNonNegInt v)) :
    ∃ e, t.call env action text coordinate = .error e := by
  cases hcall : t.call env action text coordinate with
  | error e => exact ⟨e, rfl⟩
  | ok r =>
    exfalso
    obtain ⟨htext, a, b, hcoord, hA, hB⟩ :=
      call_move_ok_shape t env action ha text coordinate r hcall
    rcases hbad with h1 | h2 | ⟨c, hc, hnp⟩ | ⟨c, hc, v, hv, hnn⟩
    · rw [h1] at hcoord
      exact Option.noConfusion hcoord
    · exact h2 htext
    · rw [hcoord] at hc
      obtain rfl : c = PyVal.list [PyVal.int a, PyVal.int b] :=
        (Option.some.injEq _ _).mp hc.symm
      exact hnp rfl
    · rw [hcoord] at hc
      obtain rfl : c = PyVal.list [PyVal.int a, PyVal.int b] :=
        (Option.some.injEq _ _).mp hc.symm
      simp only [coordItems, List.mem_cons, List.not_mem_nil, or_false] at hv
      rcases hv with rfl | rfl
      · exact hnn ⟨a, rfl, hA⟩
      · exact hnn ⟨b, rfl, hB⟩

/-- Witness for C3: mouse_move with no coordinate fails. -/
theorem move_drag_validation_witness :
    ∃ e, tool0.call env0 "mouse_move" none none = .error e :=
  move_drag_validation tool0 env0 "mouse_move" (Or.inl rfl) none none
    (Or.inl rfl)

/-- C8: a coordinate supplied as a tuple (rather than a list) of two
non-negative integers is rejected with the length-2 shape error, because
the shape check requires a Python list. -/
theorem tuple_coordinate_rejected (t : ComputerTool) (env : EnvState)
    (action : String)
    (ha : action = "mouse_move" ∨ action = "left_click_drag")
    (a b : ℤ) (hA : 0 ≤ a) (hB : 0 ≤ b) :
    t.call env action none (some (PyVal.tuple [PyVal.int a, PyVal.int b])) =
      .error ⟨(PyVal.tuple [PyVal.int a, PyVal.int b]).tostr ++
        " must be a tuple of length 2"⟩ := by
  rcases ha with rfl | rfl <;> rfl

/-- Witness for C8: the tuple (1, 2) is rejected with the shape error. -/
theorem tuple_coordinate_rejected_witness :
    tool0.call env0 "mouse_move" none
      (some (PyVal.tuple [PyVal.int 1, PyVal.int 2])) =
      .error ⟨"(1, 2) must be a tuple of length 2"⟩ := by
  have h := tuple_coordinate_rejected tool0 env0 "mouse_move" (Or.inl rfl)
    1 2 (by decide) (by decide)
  rw [h]
  rfl

/-- C4: a key action whose text contains a plus sign presses the chord of
the split, trimmed, lower-cased pieces as one hotkey combination; text
without a plus sign presses the single lower-cased key. -/
theorem key_chord_and_single (t : ComputerTool) (env : EnvState)
    (txt : String) :
    (txt.data.contains '+' = true →
      t.call env "key" (some txt) none =
        .ok ([Effect.hotkey (pySplitKeys txt), Effect.screenshotEff],
             ⟨none, some env.screenshot_image⟩)) ∧
    (txt.data.contains '+' = false →
      t.call env "key" (some txt) none =
        .ok ([Effect.press (String.mk (pyLower txt.data)),
              Effect.screenshotEff],
             ⟨none, some env.screenshot_image⟩)) := by
  constructor <;> intro h <;> simp [ComputerTool.call, h] <;>
    simpa using h

/-- Witness for C4: text "ctrl+c" presses the two-key chord ctrl, c. -/
theorem key_chord_and_single_witness :
    tool0.call env0 "key" (some "ctrl+c") none =
      .ok ([Effect.hotkey ["ctrl", "c"], Effect.screenshotEff],
           ⟨none, some "img"⟩) := by
  have h := (key_chord_and_single tool0 env0 "ctrl+c").1 (by decide)
  rw [h]
  rfl

/-- C5: cursor_position rejects any supplied text or coordinate, and
otherwise returns the pointer location converted from computer space to
API space as the text X=sx,Y=sy, with no image payload and no screenshot
effect. -/
theorem cursor_position_spec (t : ComputerTool) (env : EnvState) :
    (∀ (s : String) (c : Option PyVal),
      t.call env "cursor_position" (some s) c =
        .error ⟨"text is not accepted for cursor_position"⟩) ∧
    (∀ c : PyVal,
      t.call env "cursor_position" none (some c) =
        .error ⟨"coordinate is not accepted for cursor_position"⟩) ∧
    (∃ sx sy : ℤ,
      t.scale_coordinates .COMPUTER env.cursor_x env.cursor_y =
        .ok (sx, sy) ∧
      t.call env "cursor_position" none none =
        .ok ([], ⟨some s!"X={sx},Y={sy}", none⟩)) := by
  refine ⟨fun s c => rfl, fun c => rfl, ?_⟩
  obtain ⟨⟨sx, sy⟩, hp⟩ := scale_computer_ok t env.cursor_x env.cursor_y
  exact ⟨sx, sy, hp, by simp [ComputerTool.call, hp]⟩

/-- C6: any action string outside the fixed ten-action set fails with the
invalid-action error, whatever text and coordinate accompany it. -/
theorem invalid_action_rejected (t : ComputerTool) (env : EnvState)
    (action : String)
    (h : action ∉ (["key", "type", "mouse_move", "left_click",
      "left_click_drag", "right_click", "middle_click", "double_click",
      "screenshot", "cursor_position"] : List String))
    (text : Option String) (coordinate : Option PyVal) :
    t.call env action text coordinate =
      .error ⟨s!"Invalid action: {action}"⟩ := by
  simp only [List.mem_cons, List.not_mem_nil, or_false, not_or] at h
  obtain ⟨h1, h2, h3, h4, h5, h6, h7, h8, h9, h10⟩ := h
  unfold ComputerTool.call
  rw [if_neg (by tauto), if_neg (by tauto), if_neg (by tauto)]

/-- Witness for C6: the unknown action "scroll" fails with the
invalid-action error even with text and coordinate fields present. -/
theorem invalid_action_rejected_witness :
    tool0.call env0 "scroll" (some "x") (some (PyVal.int 3)) =
      .error ⟨"Invalid action: scroll"⟩ := by
  have h := invalid_action_rejected tool0 env0 "scroll" (by decide)
    (some "x") (some (PyVal.int 3))
  rw [h]
  rfl

end ComputerUseDemo
